import Mathlib

/-!
Shallow embedding of the voicetyped core in Lean 4, together with proofs
about the embedded operations.  Each definition is translated from one Go
function or type of the repository; the theorems at the end of the file
settle the specification claims against these definitions.

Conventions used throughout the embedding:
  * Go `time.Time` / `time.Duration` values are modelled as `Int`
    (an instant on an abstract integer clock / a span on that clock);
    `time.Now()` becomes an explicit `now : Int` argument.
  * Go maps are modelled as association lists with insert-or-overwrite
    semantics (`upsert`), preserving the map-assignment behaviour.
  * Mutating methods become pure functions returning the updated value.
  * External collaborators (Go templates, `url.Parse`, DNS resolution,
    `net.ParseIP`, RTP/VP9 depacketisation, JSON marshalling) are passed
    in as explicit function arguments, the code under test being only a
    consumer of their results.
-/

namespace VoiceTyped

/-! ## pkg/webhook/circuit_breaker.go -/

/-- Circuit breaker states, from the `StateClosed` / `StateOpen` /
`StateHalfOpen` string constants. -/
inductive CBState where
  | closed
  | opened
  | halfOpen
deriving DecidableEq, Repr

/-- CircuitBreakerConfig holds the parameters for a circuit breaker. -/
structure CircuitBreakerConfig where
  FailureThreshold : Int
  ResetTimeout : Int
  HalfOpenMaxAttempts : Int
deriving DecidableEq, Repr

/-- CircuitBreaker per-endpoint state (mutex elided; methods are pure
state transformers). -/
structure CircuitBreaker where
  state : CBState
  failures : Int
  successes : Int
  lastFailureTime : Int
  config : CircuitBreakerConfig
deriving DecidableEq, Repr

/-- NewCircuitBreaker creates a circuit breaker with the given config,
clamping `HalfOpenMaxAttempts` to at least 1. -/
def NewCircuitBreaker (cfg : CircuitBreakerConfig) : CircuitBreaker :=
  let cfg := if cfg.HalfOpenMaxAttempts ≤ 0 then { cfg with HalfOpenMaxAttempts := 1 } else cfg
  { state := .closed
    failures := 0
    successes := 0
    lastFailureTime := 0
    config := cfg }

/-- AllowRequest returns true if a request should be attempted, and the
updated breaker (`time.Since(lastFailureTime) > ResetTimeout` becomes
`now - lastFailureTime > ResetTimeout`). -/
def CircuitBreaker.AllowRequest (cb : CircuitBreaker) (now : Int) : Bool × CircuitBreaker :=
  match cb.state with
  | .closed => (true, cb)
  | .opened =>
      if now - cb.lastFailureTime > cb.config.ResetTimeout then
        (true, { cb with state := .halfOpen, successes := 0 })
      else
        (false, cb)
  | .halfOpen => (true, cb)

/-- RecordSuccess records a successful delivery. -/
def CircuitBreaker.RecordSuccess (cb : CircuitBreaker) : CircuitBreaker :=
  let cb := { cb with failures := 0 }
  if cb.state = .halfOpen then
    let cb := { cb with successes := cb.successes + 1 }
    if cb.successes ≥ cb.config.HalfOpenMaxAttempts then { cb with state := .closed } else cb
  else
    { cb with state := .closed }

/-- RecordFailure records a failed delivery at instant `now`. -/
def CircuitBreaker.RecordFailure (cb : CircuitBreaker) (now : Int) : CircuitBreaker :=
  let cb := { cb with failures := cb.failures + 1, lastFailureTime := now }
  if cb.state = .halfOpen then
    { cb with state := .opened }
  else if cb.failures ≥ cb.config.FailureThreshold then
    { cb with state := .opened }
  else
    cb

/-! ## internal/media/sfu/forwarder.go: pliDebouncer -/

/-- pliDebouncer limits PLI requests to at most one per interval per track. -/
structure PLIDebouncer where
  lastPLI : Int
  interval : Int
deriving DecidableEq, Repr

/-- newPLIDebouncer starts with the zero time as `lastPLI`. -/
def newPLIDebouncer (interval : Int) : PLIDebouncer :=
  { lastPLI := 0, interval := interval }

/-- shouldSendPLI returns whether a PLI may be sent at instant `now`,
updating `lastPLI` when it fires. -/
def PLIDebouncer.shouldSendPLI (d : PLIDebouncer) (now : Int) : Bool × PLIDebouncer :=
  if now - d.lastPLI < d.interval then
    (false, d)
  else
    (true, { d with lastPLI := now })

/-! ## pkg/dialog/session.go -/

/-- DefaultMaxHistory is the maximum number of state records before eviction. -/
def DefaultMaxHistory : Nat := 1000

/-- StateRecord records a state transition for audit purposes. -/
structure StateRecord where
  fromState : String
  toState : String
  trigger : String
  timestamp : Int
deriving DecidableEq, Repr

/-- Session holds per-call mutable state (mutex elided; the fields the
claims touch are kept, the channel-facing ones are not representable). -/
structure Session where
  id : String
  dialogName : String
  currentState : String
  vars : List (String × String)
  history : List StateRecord
  startTime : Int
  maxHistory : Nat
deriving DecidableEq, Repr

/-- NewSession creates a new call session at instant `now`. -/
def NewSession (id dialogName initialState : String) (now : Int) : Session :=
  { id := id
    dialogName := dialogName
    currentState := initialState
    vars := []
    history := []
    startTime := now
    maxHistory := DefaultMaxHistory }

/-- RecordTransition adds a state transition to the audit history,
evicting the oldest 10% of entries when the history cap is reached. -/
def Session.RecordTransition (s : Session) (frm toSt trigger : String) (now : Int) : Session :=
  let history :=
    if s.history.length ≥ s.maxHistory then
      let evict := s.maxHistory / 10
      let evict := if evict < 1 then 1 else evict
      s.history.drop evict
    else
      s.history
  { s with
    history := history ++ [{ fromState := frm, toState := toSt, trigger := trigger, timestamp := now }]
    currentState := toSt }

/-- upsert models Go map assignment `m[k] = v` over an association list:
replace the existing binding for `k`, or append a new one. -/
def upsert {α : Type} (l : List (String × α)) (k : String) (v : α) : List (String × α) :=
  if l.any (fun kv => kv.1 = k) then
    l.map (fun kv => if kv.1 = k then (k, v) else kv)
  else
    l ++ [(k, v)]

/-- lookupKey models Go map read `m[k]` over an association list. -/
def lookupKey {α : Type} (l : List (String × α)) (k : String) : Option α :=
  (l.find? (fun kv => kv.1 = k)).map (fun kv => kv.2)

/-- SetVariable sets a session variable. -/
def Session.SetVariable (s : Session) (key value : String) : Session :=
  { s with vars := upsert s.vars key value }

/-! ## pkg/dialog/fsm.go and the condition evaluator -/

/-- Action is a dialog action (type plus template-valued params). -/
structure Action where
  type : String
  params : List (String × String)
deriving DecidableEq, Repr

/-- Transition is one transition row of a dialog state. -/
structure Transition where
  event : String
  condition : String
  target : String
  actions : List Action
deriving DecidableEq, Repr

/-- DialogState is one named dialog state (`State` in Go; renamed to avoid
clashing with the transition field names). -/
structure DialogState where
  onEnter : List Action
  transitions : List Transition
  timeoutNext : String
  terminal : Bool
deriving DecidableEq, Repr

/-- Dialog is a loaded dialog definition; `states` models the Go map. -/
structure Dialog where
  name : String
  initialState : String
  states : List (String × DialogState)
deriving DecidableEq, Repr

/-- RenderFn abstracts the Go `text/template` engine applied to the
session context: it maps a condition template to its rendered output or
an execution error. -/
def RenderFn : Type := String → Except String String

/-- EvalCondition evaluates a Go template condition string: the empty
condition is vacuously true; otherwise the rendered output is trimmed
and compared against the empty string and the literals `false` and
`<no value>`. -/
def EvalCondition (render : RenderFn) (condition : String) : Except String Bool :=
  if condition = "" then
    .ok true
  else
    match render condition with
    | .error e => .error e
    | .ok result =>
        let result := result.trim
        .ok (result != "" && result != "false" && result != "<no value>")

/-- EvaluateTransitions checks all transitions for the given event type
and returns the first matching target state with its actions; an empty
target means no transition matched. -/
def EvaluateTransitions (render : RenderFn) (transitions : List Transition) (event : String) :
    Except String (String × List Action) :=
  match transitions with
  | [] => .ok ("", [])
  | t :: rest =>
      if t.event ≠ event then
        EvaluateTransitions render rest event
      else
        match EvalCondition render t.condition with
        | .error e => .error ("eval condition: " ++ e)
        | .ok true => .ok (t.target, t.actions)
        | .ok false => EvaluateTransitions render rest event

/-! ## internal/dialog/handler: DialogHandler.StartDialog -/

/-- ActiveSessionM is the store entry created by StartDialog (channels,
cancel function and background loop are not representable; the session
value is what the store-level claims observe). -/
structure ActiveSessionM where
  session : Session
deriving DecidableEq, Repr

/-- StartDialogRequest mirrors the RPC request message. -/
structure StartDialogRequest where
  sessionId : String
  dialogName : String
  initialState : String
  vars : List (String × String)
deriving DecidableEq, Repr

/-- StartDialogResponse mirrors the RPC response message (on-enter
actions are kept as dialog actions rather than proto directives). -/
structure StartDialogResponse where
  sessionId : String
  currentState : String
  actions : List Action
deriving DecidableEq, Repr

/-- SessionStore holds active dialog sessions keyed by session id. -/
def SessionStore : Type := List (String × ActiveSessionM)

/-- StartDialog looks up the dialog, builds a fresh session, stores it
under `req.sessionId` (a plain map assignment, overwriting any existing
entry with the same id), and answers with the initial state's on-enter
actions.  `loader` models `h.loader.Get`. -/
def StartDialog (loader : List (String × Dialog)) (store : SessionStore)
    (req : StartDialogRequest) (now : Int) :
    Except String (SessionStore × StartDialogResponse) :=
  match lookupKey loader req.dialogName with
  | none => .error ("dialog not found: " ++ req.dialogName)
  | some d =>
      let initialState := if req.initialState = "" then d.initialState else req.initialState
      let session := NewSession req.sessionId req.dialogName initialState now
      let session := req.vars.foldl (fun s kv => s.SetVariable kv.1 kv.2) session
      match lookupKey d.states initialState with
      | none => .error ("state not found: " ++ initialState)
      | some st =>
          let store := upsert store req.sessionId { session := session }
          .ok (store, { sessionId := session.id, currentState := initialState, actions := st.onEnter })

/-! ## Webhook deliverer failure handling (Deliverer.handleFailure) -/

/-- Envelope is the event payload wrapper (timestamp and raw data kept
as the claims need them: identity and type). -/
structure Envelope where
  id : String
  type : String
  sessionId : String
deriving DecidableEq, Repr

/-- DeadLetter is the persisted record of an undeliverable event. -/
structure DeadLetter where
  webhookId : String
  eventId : String
  eventType : String
  payload : String
  lastError : String
  attempts : Int
  replayable : Bool
deriving DecidableEq, Repr

/-- DelivererConfig: the retry/backoff knobs of the deliverer. -/
structure DelivererConfig where
  MaxRetries : Int
  BackoffInitialSec : Int
  BackoffMaxSec : Int
deriving DecidableEq, Repr

/-- wrap64 reduces an integer to the signed 64-bit value Go's `int`
arithmetic would produce. -/
def wrap64 (x : Int) : Int :=
  (x + 2 ^ 63) % 2 ^ 64 - 2 ^ 63

/-- FailureOutcome is what `handleFailure` does: schedule a retry after
`delaySec` seconds carrying `nextAttempt`, or persist a dead letter. -/
inductive FailureOutcome where
  | retry (delaySec : Int) (nextAttempt : Int)
  | deadLetter (dl : DeadLetter)
deriving DecidableEq, Repr

/-- handleFailure decides between scheduling a retry (exponential
backoff `BackoffInitialSec * (1 <<< (attempt - 1))` capped at
`BackoffMaxSec`, in Go's wrapping int arithmetic) and persisting a dead
letter once `attempt ≥ MaxRetries`.  `marshal` abstracts
`json.Marshal` on the envelope.  `none` models the runtime panic Go
raises on a negative shift count. -/
def handleFailure (marshal : Envelope → String) (cfg : DelivererConfig)
    (whId : String) (env : Envelope) (attempt : Int) (errMsg : String) :
    Option FailureOutcome :=
  if attempt ≥ cfg.MaxRetries then
    some (.deadLetter
      { webhookId := whId
        eventId := env.id
        eventType := env.type
        payload := marshal env
        lastError := errMsg
        attempts := attempt
        replayable := true })
  else if attempt - 1 < 0 then
    none
  else
    let backoff := wrap64 (cfg.BackoffInitialSec * wrap64 (2 ^ (attempt - 1).toNat))
    let backoff := if backoff > cfg.BackoffMaxSec then cfg.BackoffMaxSec else backoff
    some (.retry backoff (attempt + 1))

/-! ## internal/media/sfu: E2EE validation, Room.AddPeer -/

/-- EncryptionInfo holds E2EE metadata for a track or peer. -/
structure EncryptionInfo where
  algorithm : String
  keyId : Nat
  senderKey : List Nat
deriving DecidableEq, Repr

/-- ValidateE2EERoom checks whether a peer's encryption info is
compatible with the room's E2EE requirement (the two guard `if`s of the
Go function; the second dereference is only reached with a non-nil
pointer). -/
def ValidateE2EERoom (roomRequired : Bool) (peerEnc : Option EncryptionInfo) :
    Except String Unit :=
  match roomRequired, peerEnc with
  | true, none => .error "room requires E2EE but peer has no encryption info"
  | true, some e =>
      if e.algorithm = "" then
        .error "room requires E2EE but peer has no encryption algorithm"
      else
        .ok ()
  | false, _ => .ok ()

/-- PeerM is the slice of a `Peer` that `Room.AddPeer` inspects: its id,
its encryption metadata, and its `peerConfig.AutoSubscribeAudio` flag. -/
structure PeerM where
  id : String
  encryption : Option EncryptionInfo
  autoSubscribeAudio : Bool
deriving DecidableEq, Repr

/-- PubTrackM is the slice of a `PublisherTrack` that `AddPeer` inspects:
identity, owning publisher, and whether it is an audio track. -/
structure PubTrackM where
  trackId : String
  publisherId : String
  isAudio : Bool
deriving DecidableEq, Repr

/-- QualityHigh is the `VideoQualityLevel` constant 3. -/
def QualityHigh : Int := 3

/-- SubReq records one `pt.Subscribe(peer, quality, maxTemporal,
maxSpatial)` call made by the room. -/
structure SubReq where
  subscriberId : String
  trackId : String
  quality : Int
  maxTemporal : Int
  maxSpatial : Int
deriving DecidableEq, Repr

/-- RoomM is the state of a room that the peer-lifecycle claims touch
(`subs` accumulates the Subscribe calls issued by the room; worker pool,
speaker detector and taps are not representable). -/
structure RoomM where
  id : String
  peers : List PeerM
  maxPeers : Int
  closed : Bool
  e2eeRequired : Bool
  autoSubscribeAudio : Bool
  publisherTracks : List PubTrackM
  subs : List SubReq
deriving DecidableEq, Repr

/-- NewRoom creates a new room, clamping a non-positive `maxPeers` to
1000. -/
def NewRoom (id : String) (maxPeers : Int) (autoSubscribeAudio e2eeRequired : Bool) : RoomM :=
  let maxPeers := if maxPeers ≤ 0 then 1000 else maxPeers
  { id := id
    peers := []
    maxPeers := maxPeers
    closed := false
    e2eeRequired := e2eeRequired
    autoSubscribeAudio := autoSubscribeAudio
    publisherTracks := []
    subs := [] }

/-- upsertPeer models the Go map assignment `r.peers[p.ID()] = p`. -/
def upsertPeer (ps : List PeerM) (p : PeerM) : List PeerM :=
  if ps.any (fun q => q.id = p.id) then
    ps.map (fun q => if q.id = p.id then p else q)
  else
    ps ++ [p]

/-- AddPeer adds a peer to the room: rejects a closed or full room and,
when E2EE is required, a peer failing `ValidateE2EERoom`; then stores
the peer, reports the available publisher tracks, and (when both the
room's and the peer's auto-subscribe-audio flags are set) issues a
best-effort Subscribe call at quality=high, temporal=-1, spatial=-1 for
every existing audio track of another publisher (results of those calls
are discarded by the Go code). -/
def RoomM.AddPeer (r : RoomM) (p : PeerM) : Except String (RoomM × List PubTrackM) :=
  if r.closed then
    .error ("room is closed: " ++ r.id)
  else if (r.peers.length : Int) ≥ r.maxPeers then
    .error ("room is full: " ++ r.id)
  else
    match (if r.e2eeRequired then ValidateE2EERoom true p.encryption else .ok ()) with
    | .error e => .error e
    | .ok _ =>
        let peers := upsertPeer r.peers p
        let available := r.publisherTracks
        let newSubs :=
          if r.autoSubscribeAudio && p.autoSubscribeAudio then
            (r.publisherTracks.filter (fun pt => pt.isAudio && pt.publisherId ≠ p.id)).map
              (fun pt =>
                { subscriberId := p.id
                  trackId := pt.trackId
                  quality := QualityHigh
                  maxTemporal := -1
                  maxSpatial := -1 })
          else
            []
        .ok ({ r with peers := peers, subs := r.subs ++ newSubs }, available)

/-- exceptIsErr observes whether a Go-style `(value, err)` result carries
a non-nil error. -/
def exceptIsErr {ε α : Type} : Except ε α → Bool
  | .error _ => true
  | .ok _ => false

/-! ## pkg/urlvalidation/ssrf.go -/

/-- IPAddr is a resolved address: an IPv4 address as a `Nat` below
`2 ^ 32` (Go's `To4()`-normalised form, covering v4-mapped v6 too) or a
plain IPv6 address as a `Nat` below `2 ^ 128`. -/
inductive IPAddr where
  | v4 (n : Nat)
  | v6 (n : Nat)
deriving DecidableEq, Repr

/-- ipv4 packs a dotted quad into its 32-bit value. -/
def ipv4 (a b c d : Nat) : Nat :=
  ((a * 256 + b) * 256 + c) * 256 + d

/-- inCIDR4 is membership in an IPv4 CIDR range `a.b.c.d/p`
(`net.IPNet.Contains`; an IPv6 address never matches a v4 network). -/
def inCIDR4 (a b c d p : Nat) : IPAddr → Bool
  | .v4 n => n / 2 ^ (32 - p) = ipv4 a b c d / 2 ^ (32 - p)
  | .v6 _ => false

/-- inCIDR6 is membership in an IPv6 CIDR range `base/p` (an IPv4
address never matches a v6 network). -/
def inCIDR6 (base p : Nat) : IPAddr → Bool
  | .v6 n => n / 2 ^ (128 - p) = base / 2 ^ (128 - p)
  | .v4 _ => false

/-- isPrivateIP returns true if the IP is in a private, loopback,
link-local, or other reserved range, in the source's range order. -/
def isPrivateIP (ip : IPAddr) : Bool :=
  inCIDR4 10 0 0 0 8 ip
  || inCIDR4 172 16 0 0 12 ip
  || inCIDR4 192 168 0 0 16 ip
  || inCIDR4 127 0 0 0 8 ip
  || inCIDR4 169 254 0 0 16 ip
  || inCIDR6 1 128 ip
  || inCIDR6 (0xfc00 * 2 ^ 112) 7 ip
  || inCIDR6 (0xfe80 * 2 ^ 112) 10 ip
  || inCIDR4 100 64 0 0 10 ip
  || inCIDR4 0 0 0 0 8 ip
  || inCIDR4 192 0 0 0 24 ip
  || inCIDR4 192 0 2 0 24 ip
  || inCIDR4 198 51 100 0 24 ip
  || inCIDR4 203 0 113 0 24 ip
  || inCIDR4 198 18 0 0 15 ip
  || inCIDR4 224 0 0 0 4 ip
  || inCIDR4 240 0 0 0 4 ip
  || inCIDR4 255 255 255 255 32 ip

/-- GoURL is the slice of a parsed `url.URL` that the validator reads:
the scheme and the `Hostname()` result. -/
structure GoURL where
  scheme : String
  hostname : String
deriving DecidableEq, Repr

/-- checkResolvedIPs is the resolver loop of `ValidateWebhookURL`:
addresses that do not parse are skipped, and the first address in a
reserved range fails the validation. -/
def checkResolvedIPs (parseIP : String → Option IPAddr) : List String → Except String Unit
  | [] => .ok ()
  | ipStr :: rest =>
      match parseIP ipStr with
      | none => checkResolvedIPs parseIP rest
      | some ip =>
          if isPrivateIP ip then
            .error ("URL resolves to private/reserved IP " ++ ipStr)
          else
            checkResolvedIPs parseIP rest

/-- ValidateWebhookURL checks that a URL is safe for use as a webhook or
hook callback endpoint.  `parse` abstracts `url.Parse` plus
`u.Hostname()`, `lookupHost` abstracts `net.LookupHost`, `parseIP`
abstracts `net.ParseIP`; `allowPrivate` is the test-only option
(defaults to false). -/
def ValidateWebhookURL (parse : String → Except String GoURL)
    (lookupHost : String → Except String (List String))
    (parseIP : String → Option IPAddr)
    (allowPrivate : Bool) (rawURL : String) : Except String Unit :=
  match parse rawURL with
  | .error e => .error ("invalid URL: " ++ e)
  | .ok u =>
      let scheme := u.scheme.toLower
      if scheme ≠ "https" ∧ scheme ≠ "http" then
        .error ("URL scheme not allowed; use http or https: " ++ u.scheme)
      else if u.hostname = "" then
        .error "URL must have a hostname"
      else
        match lookupHost u.hostname with
        | .error e => .error ("cannot resolve hostname: " ++ e)
        | .ok ips =>
            if allowPrivate then .ok () else checkResolvedIPs parseIP ips

/-- sampleParse is a URL-parser fixture used to exercise the validation
theorems on concrete inputs: the well-formed public URL parses to
scheme `https` and host `good.example`, everything else to scheme
`http` and host `internal`. -/
def sampleParse : String → Except String GoURL :=
  fun r =>
    if r = "https://good.example/hook" then
      .ok { scheme := "https", hostname := "good.example" }
    else
      .ok { scheme := "http", hostname := "internal" }

/-- sampleLookup is a resolver fixture: the public host resolves to a
public address, everything else to `10.0.0.1`. -/
def sampleLookup : String → Except String (List String) :=
  fun h => if h = "good.example" then .ok ["93.184.216.34"] else .ok ["10.0.0.1"]

/-- sampleParseIP parses exactly the two addresses the fixtures return. -/
def sampleParseIP : String → Option IPAddr :=
  fun t =>
    if t = "10.0.0.1" then some (.v4 (ipv4 10 0 0 1))
    else if t = "93.184.216.34" then some (.v4 (ipv4 93 184 216 34))
    else none

/-! ## internal/media/sfu/forwarder.go: RunSVCForwarder loop body -/

/-- ForwardDecision: whether one loop iteration writes the packet to the
down track or skips it (`continue`). -/
inductive ForwardDecision where
  | write
  | skip
deriving DecidableEq, Repr

/-- SVCSubState is the subscription state one SVC forwarder iteration
reads under the lock. -/
structure SVCSubState where
  paused : Bool
  hasDownTrack : Bool
  maxSpatialLayer : Int
  maxTemporalLayer : Int
deriving DecidableEq, Repr

/-- svcStep is the body of the `RunSVCForwarder` loop for one received
packet: `isVP9` is the track-codec test (`video/VP9` or `video/vp9`),
`parseRTPPayload` abstracts `rtp.Packet.Unmarshal` (payload on success),
`parseVP9SidTid` abstracts `codecs.VP9Packet.Unmarshal` (spatial and
temporal ids on success). -/
def svcStep (isVP9 : Bool) (sub : SVCSubState)
    (parseRTPPayload : List Nat → Option (List Nat))
    (parseVP9SidTid : List Nat → Option (Nat × Nat))
    (pkt : List Nat) : ForwardDecision :=
  if sub.paused || !sub.hasDownTrack then
    .skip
  else if isVP9 && (sub.maxSpatialLayer ≥ 0 || sub.maxTemporalLayer ≥ 0) then
    match parseRTPPayload pkt with
    | none => .skip
    | some payload =>
        match parseVP9SidTid payload with
        | some (sid, tid) =>
            if sub.maxSpatialLayer ≥ 0 && (sid : Int) > sub.maxSpatialLayer then
              .skip
            else if sub.maxTemporalLayer ≥ 0 && (tid : Int) > sub.maxTemporalLayer then
              .skip
            else
              .write
        | none => .write
  else
    .write

/-! ## Theorems -/

/-- C10 counterexample: with `interval = 5` and `lastPLI = 0`, a call at
`now = 5` (so that `now - last` equals the interval exactly) returns
`true`, while the claim requires `shouldSendPLI` to return `true` only
when `now - last` is strictly greater than the interval, and in
particular to return `false` at exact equality. -/
theorem shouldSendPLI_at_exact_interval :
    (PLIDebouncer.shouldSendPLI { lastPLI := 0, interval := 5 } 5).1 = true ∧
    ¬ ((5 : Int) - 0 > 5) := by
  exact ⟨rfl, by decide⟩

/-- C10 (amended): `shouldSendPLI` at time `now` returns true iff
`now - lastPLI ≥ interval`; when it returns true it updates `lastPLI`
to `now` (leaving the interval unchanged), and when it returns false
the debouncer is unchanged. -/
theorem shouldSendPLI_spec (d : PLIDebouncer) (now : Int) :
    ((d.shouldSendPLI now).1 = true ↔ d.interval ≤ now - d.lastPLI) ∧
    ((d.shouldSendPLI now).1 = true →
      (d.shouldSendPLI now).2 = { d with lastPLI := now }) ∧
    ((d.shouldSendPLI now).1 = false → (d.shouldSendPLI now).2 = d) := by
  unfold PLIDebouncer.shouldSendPLI
  by_cases h : now - d.lastPLI < d.interval
  · rw [if_pos h]
    exact ⟨by simp; omega, by simp, fun _ => rfl⟩
  · rw [if_neg h]
    exact ⟨by simp; omega, fun _ => rfl, by simp⟩

/-- C10 witness: the amended characterisation evaluated at the concrete
debouncer `lastPLI = 0, interval = 5` and `now = 5`. -/
theorem shouldSendPLI_spec_witness :
    ((PLIDebouncer.shouldSendPLI { lastPLI := 0, interval := 5 } 5).1 = true ↔
      (5 : Int) ≤ 5 - 0) ∧
    ((PLIDebouncer.shouldSendPLI { lastPLI := 0, interval := 5 } 5).1 = true →
      (PLIDebouncer.shouldSendPLI { lastPLI := 0, interval := 5 } 5).2
        = { lastPLI := 5, interval := 5 }) ∧
    ((PLIDebouncer.shouldSendPLI { lastPLI := 0, interval := 5 } 5).1 = false →
      (PLIDebouncer.shouldSendPLI { lastPLI := 0, interval := 5 } 5).2
        = { lastPLI := 0, interval := 5 }) :=
  shouldSendPLI_spec { lastPLI := 0, interval := 5 } 5

/-- C4: `RecordTransition` sets the current state to `toSt` and appends
exactly one record; below the cap the history only grows by that
record, and once the length has reached the cap the oldest `cap / 10`
entries are evicted first (so the post-eviction length satisfies
`new + cap / 10 = old + 1`).  Sessions are created with the default cap
1000, for which `cap / 10 = 100 ≥ 1`. -/
theorem recordTransition_spec (s : Session) (f t tr : String) (now : Int)
    (hcap : 10 ≤ s.maxHistory) :
    (s.RecordTransition f t tr now).currentState = t ∧
    (s.history.length < s.maxHistory →
      (s.RecordTransition f t tr now).history
        = s.history ++ [{ fromState := f, toState := t, trigger := tr, timestamp := now }]) ∧
    (s.maxHistory ≤ s.history.length →
      (s.RecordTransition f t tr now).history
        = s.history.drop (s.maxHistory / 10)
            ++ [{ fromState := f, toState := t, trigger := tr, timestamp := now }] ∧
      (s.RecordTransition f t tr now).history.length + s.maxHistory / 10
        = s.history.length + 1) ∧
    (∀ idn dn ist n0, (NewSession idn dn ist n0).maxHistory = 1000) := by
  have hdiv : 1 ≤ s.maxHistory / 10 := by omega
  refine ⟨?_, ?_, ?_, ?_⟩
  · unfold Session.RecordTransition
    simp
  · intro hlt
    unfold Session.RecordTransition
    rw [if_neg (by omega)]
  · intro hge
    have h1 : ¬ (s.maxHistory / 10 < 1) := Nat.not_lt.mpr hdiv
    refine ⟨?_, ?_⟩ <;> simp [Session.RecordTransition, hge, h1]
    omega
  · intro idn dn ist n0
    rfl

/-- C4 witness: a fresh session (cap 1000, empty history) records a
transition by appending it and setting the current state. -/
theorem recordTransition_spec_witness :
    ((NewSession "s1" "d" "a" 0).RecordTransition "a" "b" "speech" 7).currentState = "b" ∧
    (((NewSession "s1" "d" "a" 0).history.length < (NewSession "s1" "d" "a" 0).maxHistory →
      ((NewSession "s1" "d" "a" 0).RecordTransition "a" "b" "speech" 7).history
        = (NewSession "s1" "d" "a" 0).history
            ++ [{ fromState := "a", toState := "b", trigger := "speech", timestamp := 7 }])) ∧
    ((NewSession "s1" "d" "a" 0).maxHistory ≤ (NewSession "s1" "d" "a" 0).history.length →
      ((NewSession "s1" "d" "a" 0).RecordTransition "a" "b" "speech" 7).history
        = (NewSession "s1" "d" "a" 0).history.drop ((NewSession "s1" "d" "a" 0).maxHistory / 10)
            ++ [{ fromState := "a", toState := "b", trigger := "speech", timestamp := 7 }] ∧
      ((NewSession "s1" "d" "a" 0).RecordTransition "a" "b" "speech" 7).history.length
          + (NewSession "s1" "d" "a" 0).maxHistory / 10
        = (NewSession "s1" "d" "a" 0).history.length + 1) ∧
    (∀ idn dn ist n0, (NewSession idn dn ist n0).maxHistory = 1000) :=
  recordTransition_spec (NewSession "s1" "d" "a" 0) "a" "b" "speech" 7 (by decide)

/-- C5: transition evaluation examines transitions in declaration order:
a head transition with a different event is skipped; a head transition
for the event whose condition is empty, or renders (after trimming) to a
non-empty string other than `false` and `<no value>`, yields its target
and actions; a head transition whose condition renders to one of those
literals (or to whitespace) is passed over; and the empty transition
list yields the empty target with no error. -/
theorem evaluateTransitions_spec (render : RenderFn) (t : Transition)
    (rest : List Transition) (event : String) (r : String) :
    (t.event ≠ event →
      EvaluateTransitions render (t :: rest) event = EvaluateTransitions render rest event) ∧
    (t.event = event → t.condition = "" →
      EvaluateTransitions render (t :: rest) event = .ok (t.target, t.actions)) ∧
    (t.event = event → t.condition ≠ "" → render t.condition = .ok r →
      (r.trim ≠ "" ∧ r.trim ≠ "false" ∧ r.trim ≠ "<no value>") →
      EvaluateTransitions render (t :: rest) event = .ok (t.target, t.actions)) ∧
    (t.event = event → t.condition ≠ "" → render t.condition = .ok r →
      ¬ (r.trim ≠ "" ∧ r.trim ≠ "false" ∧ r.trim ≠ "<no value>") →
      EvaluateTransitions render (t :: rest) event = EvaluateTransitions render rest event) ∧
    (EvaluateTransitions render ([] : List Transition) event = .ok ("", [])) := by
  have hcons : ∀ (t : Transition) (rest : List Transition),
      EvaluateTransitions render (t :: rest) event =
        if t.event ≠ event then EvaluateTransitions render rest event
        else
          match EvalCondition render t.condition with
          | .error e => .error ("eval condition: " ++ e)
          | .ok true => .ok (t.target, t.actions)
          | .ok false => EvaluateTransitions render rest event := fun _ _ => rfl
  refine ⟨?_, ?_, ?_, ?_, rfl⟩
  · intro hne
    rw [hcons, if_pos hne]
  · intro hev hcond
    rw [hcons, if_neg (by simp [hev])]
    simp [EvalCondition, hcond]
  · intro hev hcond hr hmatch
    rw [hcons, if_neg (by simp [hev])]
    have : EvalCondition render t.condition = .ok true := by
      simp only [EvalCondition, if_neg hcond, hr]
      have h1 : (r.trim != "") = true := by simp [hmatch.1]
      have h2 : (r.trim != "false") = true := by simp [hmatch.2.1]
      have h3 : (r.trim != "<no value>") = true := by simp [hmatch.2.2]
      rw [h1, h2, h3]
      rfl
    rw [this]
  · intro hev hcond hr hmiss
    rw [hcons, if_neg (by simp [hev])]
    have : EvalCondition render t.condition = .ok false := by
      simp only [EvalCondition, if_neg hcond, hr]
      have : (r.trim != "" && r.trim != "false" && r.trim != "<no value>") = false := by
        by_contra hb
        apply hmiss
        have := Bool.of_not_eq_false hb
        simp only [Bool.and_eq_true, bne_iff_ne] at this
        exact ⟨this.1.1, this.1.2, this.2⟩
      rw [this]
    rw [this]

/-- C5 witness: the characterisation evaluated on the identity renderer
with a concrete transition for event `speech` guarded by a condition
rendering to `yes`. -/
theorem evaluateTransitions_spec_witness :
    (("speech" : String) ≠ "dtmf" →
      EvaluateTransitions Except.ok
          [{ event := "speech", condition := "yes", target := "process", actions := [] }] "dtmf"
        = EvaluateTransitions Except.ok [] "dtmf") ∧
    (("speech" : String) = "speech" → ("yes" : String) = "" →
      EvaluateTransitions Except.ok
          [{ event := "speech", condition := "yes", target := "process", actions := [] }] "speech"
        = .ok ("process", [])) ∧
    (("speech" : String) = "speech" → ("yes" : String) ≠ "" →
      (Except.ok "yes" : Except String String) = Except.ok "yes" →
      (("yes" : String).trim ≠ "" ∧ ("yes" : String).trim ≠ "false" ∧
        ("yes" : String).trim ≠ "<no value>") →
      EvaluateTransitions Except.ok
          [{ event := "speech", condition := "yes", target := "process", actions := [] }] "speech"
        = .ok ("process", [])) ∧
    (("speech" : String) = "speech" → ("yes" : String) ≠ "" →
      (Except.ok "yes" : Except String String) = Except.ok "yes" →
      ¬ (("yes" : String).trim ≠ "" ∧ ("yes" : String).trim ≠ "false" ∧
        ("yes" : String).trim ≠ "<no value>") →
      EvaluateTransitions Except.ok
          [{ event := "speech", condition := "yes", target := "process", actions := [] }] "speech"
        = EvaluateTransitions Except.ok [] "speech") ∧
    (EvaluateTransitions Except.ok ([] : List Transition) "speech" = .ok ("", [])) := by
  have h1 := evaluateTransitions_spec Except.ok
    { event := "speech", condition := "yes", target := "process", actions := [] } [] "dtmf" "yes"
  have h2 := evaluateTransitions_spec Except.ok
    { event := "speech", condition := "yes", target := "process", actions := [] } [] "speech" "yes"
  exact ⟨h1.1, h2.2.1, h2.2.2.1, h2.2.2.2.1, h2.2.2.2.2⟩

/-- Helper: `NewCircuitBreaker` never changes the failure threshold. -/
theorem newCircuitBreaker_threshold (cfg : CircuitBreakerConfig) :
    (NewCircuitBreaker cfg).config.FailureThreshold = cfg.FailureThreshold := by
  simp only [NewCircuitBreaker]
  split <;> rfl

/-- Helper: in the closed state, consecutive `RecordFailure` calls drive
the breaker to open exactly when the accumulated failures reach the
threshold. -/
theorem foldl_recordFailure_opened : ∀ (ts : List Int) (cb : CircuitBreaker),
    cb.state = .closed →
    cb.failures + (ts.length : Int) = cb.config.FailureThreshold →
    1 ≤ ts.length →
    (ts.foldl (fun c t => c.RecordFailure t) cb).state = .opened := by
  intro ts
  induction ts with
  | nil => intro cb _ _ hlen; simp at hlen
  | cons t rest ih =>
      intro cb hst hsum hlen
      simp only [List.foldl_cons]
      rcases eq_or_ne rest ([] : List Int) with hr | hr
      · subst hr
        have hge : cb.config.FailureThreshold ≤ cb.failures + 1 := by
          simp at hsum; omega
        simp [CircuitBreaker.RecordFailure, hst, hge]
      · have hlen' : 0 < rest.length := List.length_pos.mpr hr
        have hlt : ¬ (cb.config.FailureThreshold ≤ cb.failures + 1) := by
          simp at hsum; omega
        apply ih
        · simp [CircuitBreaker.RecordFailure, hst, hlt]
        · simp [CircuitBreaker.RecordFailure, hst, hlt]
          simp at hsum
          omega
        · omega

/-- C2: a breaker built closed with threshold `n ≥ 1` opens after `n`
consecutive `RecordFailure` calls; while open, `AllowRequest` within the
reset timeout of the last failure answers false and changes nothing,
and strictly after the timeout it answers true and moves to half-open
(resetting `successes`); in half-open, `RecordSuccess` increments
`successes`, zeroes `failures`, and closes the breaker exactly when the
incremented count reaches `HalfOpenMaxAttempts`, while `RecordFailure`
reopens it; and construction clamps `HalfOpenMaxAttempts` to at least 1. -/
theorem circuitBreaker_spec (cfg : CircuitBreakerConfig) (n : Int) (ts : List Int)
    (cbO cbH : CircuitBreaker) (now tf : Int)
    (hn : 1 ≤ n) (hth : cfg.FailureThreshold = n) (hts : (ts.length : Int) = n)
    (hO : cbO.state = .opened) (hH : cbH.state = .halfOpen) :
    (ts.foldl (fun c t => c.RecordFailure t) (NewCircuitBreaker cfg)).state = .opened ∧
    (now - cbO.lastFailureTime ≤ cbO.config.ResetTimeout →
      cbO.AllowRequest now = (false, cbO)) ∧
    (cbO.config.ResetTimeout < now - cbO.lastFailureTime →
      cbO.AllowRequest now = (true, { cbO with state := .halfOpen, successes := 0 })) ∧
    cbH.RecordSuccess.successes = cbH.successes + 1 ∧
    cbH.RecordSuccess.failures = 0 ∧
    (cbH.RecordSuccess.state = .closed ↔ cbH.config.HalfOpenMaxAttempts ≤ cbH.successes + 1) ∧
    (cbH.RecordFailure tf).state = .opened ∧
    1 ≤ (NewCircuitBreaker cfg).config.HalfOpenMaxAttempts := by
  refine ⟨?_, ?_, ?_, ?_, ?_, ?_, ?_, ?_⟩
  · apply foldl_recordFailure_opened
    · simp [NewCircuitBreaker]
    · have hf : (NewCircuitBreaker cfg).failures = 0 := by simp [NewCircuitBreaker]
      rw [hf, newCircuitBreaker_threshold, hth, hts]
      omega
    · omega
  · intro hle
    have : ¬ (now - cbO.lastFailureTime > cbO.config.ResetTimeout) := by omega
    simp only [CircuitBreaker.AllowRequest, hO]
    rw [if_neg this]
  · intro hgt
    simp only [CircuitBreaker.AllowRequest, hO]
    rw [if_pos (by omega)]
  · simp [CircuitBreaker.RecordSuccess, hH]
    split <;> rfl
  · simp [CircuitBreaker.RecordSuccess, hH]
    split <;> rfl
  · simp only [CircuitBreaker.RecordSuccess, hH]
    by_cases hcl : cbH.config.HalfOpenMaxAttempts ≤ cbH.successes + 1
    · simp [hcl]
    · simp [hcl]
  · simp [CircuitBreaker.RecordFailure, hH]
  · simp only [NewCircuitBreaker]
    by_cases h : cfg.HalfOpenMaxAttempts ≤ 0
    · simp [h]
    · simp [h]
      omega

/-- C2 witness: the lifecycle instantiated at threshold 2, reset timeout
10, half-open max attempts clamped from 0 to 1, with failures at times
3 and 4, an open breaker probed at time 9, and a half-open breaker. -/
theorem circuitBreaker_spec_witness :
    (([3, 4] : List Int).foldl (fun c t => c.RecordFailure t)
        (NewCircuitBreaker { FailureThreshold := 2, ResetTimeout := 10, HalfOpenMaxAttempts := 0 })).state
      = .opened ∧
    ((9 : Int) - 4 ≤ (10 : Int) →
      CircuitBreaker.AllowRequest
          { state := .opened, failures := 2, successes := 0, lastFailureTime := 4,
            config := { FailureThreshold := 2, ResetTimeout := 10, HalfOpenMaxAttempts := 1 } } 9
        = (false,
            { state := .opened, failures := 2, successes := 0, lastFailureTime := 4,
              config := { FailureThreshold := 2, ResetTimeout := 10, HalfOpenMaxAttempts := 1 } })) ∧
    ((10 : Int) < 9 - 4 →
      CircuitBreaker.AllowRequest
          { state := .opened, failures := 2, successes := 0, lastFailureTime := 4,
            config := { FailureThreshold := 2, ResetTimeout := 10, HalfOpenMaxAttempts := 1 } } 9
        = (true,
            { state := .halfOpen, failures := 2, successes := 0, lastFailureTime := 4,
              config := { FailureThreshold := 2, ResetTimeout := 10, HalfOpenMaxAttempts := 1 } })) ∧
    (CircuitBreaker.RecordSuccess
        { state := .halfOpen, failures := 1, successes := 0, lastFailureTime := 4,
          config := { FailureThreshold := 2, ResetTimeout := 10, HalfOpenMaxAttempts := 1 } }).successes
      = 0 + 1 ∧
    (CircuitBreaker.RecordSuccess
        { state := .halfOpen, failures := 1, successes := 0, lastFailureTime := 4,
          config := { FailureThreshold := 2, ResetTimeout := 10, HalfOpenMaxAttempts := 1 } }).failures
      = 0 ∧
    ((CircuitBreaker.RecordSuccess
        { state := .halfOpen, failures := 1, successes := 0, lastFailureTime := 4,
          config := { FailureThreshold := 2, ResetTimeout := 10, HalfOpenMaxAttempts := 1 } }).state
        = .closed ↔ (1 : Int) ≤ 0 + 1) ∧
    (CircuitBreaker.RecordFailure
        { state := .halfOpen, failures := 1, successes := 0, lastFailureTime := 4,
          config := { FailureThreshold := 2, ResetTimeout := 10, HalfOpenMaxAttempts := 1 } } 20).state
      = .opened ∧
    (1 : Int) ≤ (NewCircuitBreaker
        { FailureThreshold := 2, ResetTimeout := 10, HalfOpenMaxAttempts := 0 }).config.HalfOpenMaxAttempts :=
  circuitBreaker_spec { FailureThreshold := 2, ResetTimeout := 10, HalfOpenMaxAttempts := 0 }
    2 [3, 4]
    { state := .opened, failures := 2, successes := 0, lastFailureTime := 4,
      config := { FailureThreshold := 2, ResetTimeout := 10, HalfOpenMaxAttempts := 1 } }
    { state := .halfOpen, failures := 1, successes := 0, lastFailureTime := 4,
      config := { FailureThreshold := 2, ResetTimeout := 10, HalfOpenMaxAttempts := 1 } }
    9 20 (by decide) rfl (by decide) rfl rfl

/-- Helper: `wrap64` is the identity on values already in signed 64-bit
range. -/
theorem wrap64_eq_of_bounds (x : Int) (h1 : -(2 ^ 63) ≤ x) (h2 : x < 2 ^ 63) :
    wrap64 x = x := by
  unfold wrap64
  omega

/-- Helper: the retry branch of `handleFailure`, with the let-bound
backoff spelled out. -/
theorem handleFailure_retry_eq (marshal : Envelope → String) (cfg : DelivererConfig)
    (whId : String) (env : Envelope) (attempt : Int) (errMsg : String)
    (hge : ¬ attempt ≥ cfg.MaxRetries) (hpos : ¬ attempt - 1 < 0) :
    handleFailure marshal cfg whId env attempt errMsg
      = some (.retry
          (if wrap64 (cfg.BackoffInitialSec * wrap64 (2 ^ (attempt - 1).toNat)) > cfg.BackoffMaxSec
            then cfg.BackoffMaxSec
            else wrap64 (cfg.BackoffInitialSec * wrap64 (2 ^ (attempt - 1).toNat)))
          (attempt + 1)) := by
  unfold handleFailure
  rw [if_neg hge, if_neg hpos]

/-- C3: for a failed delivery attempt `a ≥ 1` (within machine range, so
that the Go shift does not overflow): when `a < MaxRetries`, the outcome
is a retry scheduled after `min(BackoffInitialSec * 2 ^ (a-1),
BackoffMaxSec)` seconds carrying attempt `a + 1` and no dead letter is
created; when `a ≥ MaxRetries`, the outcome is a persisted dead letter
carrying the marshalled envelope, the last error, `attempts = a` and
`replayable = true`, and no retry is scheduled. -/
theorem handleFailure_spec (marshal : Envelope → String) (cfg : DelivererConfig)
    (whId : String) (env : Envelope) (attempt : Int) (errMsg : String)
    (h1 : 1 ≤ attempt) (h63 : attempt ≤ 63)
    (hinit : 0 ≤ cfg.BackoffInitialSec)
    (hnoov : cfg.BackoffInitialSec * 2 ^ (attempt - 1).toNat < 2 ^ 63) :
    (attempt < cfg.MaxRetries →
      handleFailure marshal cfg whId env attempt errMsg
        = some (.retry
            (min (cfg.BackoffInitialSec * 2 ^ (attempt - 1).toNat) cfg.BackoffMaxSec)
            (attempt + 1))) ∧
    (cfg.MaxRetries ≤ attempt →
      handleFailure marshal cfg whId env attempt errMsg
        = some (.deadLetter
            { webhookId := whId, eventId := env.id, eventType := env.type,
              payload := marshal env, lastError := errMsg, attempts := attempt,
              replayable := true })) := by
  constructor
  · intro hlt
    have hk : (attempt - 1).toNat ≤ 62 := by omega
    have hpow0 : (0 : Int) ≤ 2 ^ (attempt - 1).toNat := by positivity
    have hpow : (2 : Int) ^ (attempt - 1).toNat < 2 ^ 63 := by
      calc (2 : Int) ^ (attempt - 1).toNat ≤ 2 ^ 62 := by
            exact pow_le_pow_right₀ (by norm_num) hk
        _ < 2 ^ 63 := by norm_num
    have w1 : wrap64 (2 ^ (attempt - 1).toNat) = 2 ^ (attempt - 1).toNat :=
      wrap64_eq_of_bounds _ (by omega) hpow
    have hmul0 : (0 : Int) ≤ cfg.BackoffInitialSec * 2 ^ (attempt - 1).toNat :=
      mul_nonneg hinit hpow0
    have w2 : wrap64 (cfg.BackoffInitialSec * 2 ^ (attempt - 1).toNat)
        = cfg.BackoffInitialSec * 2 ^ (attempt - 1).toNat :=
      wrap64_eq_of_bounds _ (by omega) hnoov
    rw [handleFailure_retry_eq marshal cfg whId env attempt errMsg (by omega) (by omega),
      w1, w2]
    by_cases hbm : cfg.BackoffInitialSec * 2 ^ (attempt - 1).toNat > cfg.BackoffMaxSec
    · rw [if_pos hbm, min_def, if_neg (by omega)]
    · rw [if_neg hbm, min_def, if_pos (by omega)]
  · intro hge
    unfold handleFailure
    rw [if_pos (by omega)]

/-- C3 witness: attempt 3 of 5 with initial backoff 2s and cap 60s
schedules a retry after `min(2 * 2^2, 60) = 8` seconds as attempt 4;
attempt 5 dead-letters the envelope. -/
theorem handleFailure_spec_witness :
    ((3 : Int) < (5 : Int) →
      handleFailure (fun e => e.id ++ ":" ++ e.type)
          { MaxRetries := 5, BackoffInitialSec := 2, BackoffMaxSec := 60 }
          "wh1" { id := "ev1", type := "call.started", sessionId := "s1" } 3 "HTTP 500"
        = some (.retry (min ((2 : Int) * 2 ^ ((3 : Int) - 1).toNat) 60) (3 + 1))) ∧
    ((5 : Int) ≤ (3 : Int) →
      handleFailure (fun e => e.id ++ ":" ++ e.type)
          { MaxRetries := 5, BackoffInitialSec := 2, BackoffMaxSec := 60 }
          "wh1" { id := "ev1", type := "call.started", sessionId := "s1" } 3 "HTTP 500"
        = some (.deadLetter
            { webhookId := "wh1", eventId := "ev1", eventType := "call.started",
              payload := "ev1:call.started", lastError := "HTTP 500", attempts := 3,
              replayable := true })) :=
  handleFailure_spec (fun e => e.id ++ ":" ++ e.type)
    { MaxRetries := 5, BackoffInitialSec := 2, BackoffMaxSec := 60 }
    "wh1" { id := "ev1", type := "call.started", sessionId := "s1" } 3 "HTTP 500"
    (by decide) (by decide) (by decide) (by decide)

/-- Helper: map-style peer insertion grows the peer list by at most one. -/
theorem upsertPeer_length_le (ps : List PeerM) (p : PeerM) :
    (upsertPeer ps p).length ≤ ps.length + 1 := by
  unfold upsertPeer
  split
  · simp
  · simp

/-- C6: `AddPeer` fails on a closed room and on a full room; with E2EE
required it fails for a peer with no encryption metadata or an empty
algorithm; and a successful `AddPeer` happens only on a non-closed room
strictly below capacity and keeps the peer count within `maxPeers`
(failures return before the room is touched, so the peer set is
unchanged on every failure). -/
theorem addPeer_spec (r : RoomM) (p : PeerM) (e : EncryptionInfo) (r' : RoomM)
    (avail : List PubTrackM) :
    (r.closed = true → exceptIsErr (r.AddPeer p) = true) ∧
    (r.maxPeers ≤ (r.peers.length : Int) → exceptIsErr (r.AddPeer p) = true) ∧
    (r.e2eeRequired = true → p.encryption = none → exceptIsErr (r.AddPeer p) = true) ∧
    (r.e2eeRequired = true → p.encryption = some e → e.algorithm = "" →
      exceptIsErr (r.AddPeer p) = true) ∧
    (r.AddPeer p = .ok (r', avail) →
      r.closed = false ∧ (r.peers.length : Int) < r.maxPeers ∧
      (r'.peers.length : Int) ≤ r.maxPeers ∧ r'.maxPeers = r.maxPeers ∧
      r'.closed = r.closed) := by
  refine ⟨?_, ?_, ?_, ?_, ?_⟩
  · intro hc
    simp [RoomM.AddPeer, hc, exceptIsErr]
  · intro hfull
    by_cases hc : r.closed
    · simp [RoomM.AddPeer, hc, exceptIsErr]
    · simp [RoomM.AddPeer, hc, exceptIsErr, ge_iff_le, hfull]
  · intro he2ee henc
    by_cases hc : r.closed
    · simp [RoomM.AddPeer, hc, exceptIsErr]
    · by_cases hfull : r.maxPeers ≤ (r.peers.length : Int)
      · simp [RoomM.AddPeer, hc, exceptIsErr, ge_iff_le, hfull]
      · simp [RoomM.AddPeer, hc, exceptIsErr, ge_iff_le, hfull, he2ee, henc,
          ValidateE2EERoom]
  · intro he2ee henc halg
    by_cases hc : r.closed
    · simp [RoomM.AddPeer, hc, exceptIsErr]
    · by_cases hfull : r.maxPeers ≤ (r.peers.length : Int)
      · simp [RoomM.AddPeer, hc, exceptIsErr, ge_iff_le, hfull]
      · simp [RoomM.AddPeer, hc, exceptIsErr, ge_iff_le, hfull, he2ee, henc, halg,
          ValidateE2EERoom]
  · intro hok
    unfold RoomM.AddPeer at hok
    by_cases hc : r.closed
    · simp [hc] at hok
    · by_cases hfull : r.maxPeers ≤ (r.peers.length : Int)
      · simp [hc, ge_iff_le, hfull] at hok
      · rcases hv : (if r.e2eeRequired then ValidateE2EERoom true p.encryption else .ok ()) with e0 | u0
        · rw [if_neg hc, if_neg (by simpa [ge_iff_le] using hfull)] at hok
          rw [hv] at hok
          exact absurd hok (by simp)
        · rw [if_neg hc, if_neg (by simpa [ge_iff_le] using hfull)] at hok
          rw [hv] at hok
          simp only [Except.ok.injEq, Prod.mk.injEq] at hok
          obtain ⟨hr', havail⟩ := hok
          subst hr'
          refine ⟨Bool.not_eq_true r.closed ▸ hc, by omega, ?_, rfl, rfl⟩
          have := upsertPeer_length_le r.peers p
          simp only []
          omega

/-- C6 witness: a one-seat room accepts its first peer; the resulting
room stays within capacity, and the failure branches hold vacuously. -/
theorem addPeer_spec_witness :
    (RoomM.closed
        { id := "r1", peers := [], maxPeers := 1, closed := false, e2eeRequired := false,
          autoSubscribeAudio := false, publisherTracks := [], subs := [] } = true →
      exceptIsErr (RoomM.AddPeer
        { id := "r1", peers := [], maxPeers := 1, closed := false, e2eeRequired := false,
          autoSubscribeAudio := false, publisherTracks := [], subs := [] }
        { id := "p1", encryption := none, autoSubscribeAudio := true }) = true) ∧
    (RoomM.maxPeers
        { id := "r1", peers := [], maxPeers := 1, closed := false, e2eeRequired := false,
          autoSubscribeAudio := false, publisherTracks := [], subs := [] }
      ≤ ((RoomM.peers
        { id := "r1", peers := [], maxPeers := 1, closed := false, e2eeRequired := false,
          autoSubscribeAudio := false, publisherTracks := [], subs := [] }).length : Int) →
      exceptIsErr (RoomM.AddPeer
        { id := "r1", peers := [], maxPeers := 1, closed := false, e2eeRequired := false,
          autoSubscribeAudio := false, publisherTracks := [], subs := [] }
        { id := "p1", encryption := none, autoSubscribeAudio := true }) = true) ∧
    (RoomM.e2eeRequired
        { id := "r1", peers := [], maxPeers := 1, closed := false, e2eeRequired := false,
          autoSubscribeAudio := false, publisherTracks := [], subs := [] } = true →
      PeerM.encryption
        { id := "p1", encryption := none, autoSubscribeAudio := true } = none →
      exceptIsErr (RoomM.AddPeer
        { id := "r1", peers := [], maxPeers := 1, closed := false, e2eeRequired := false,
          autoSubscribeAudio := false, publisherTracks := [], subs := [] }
        { id := "p1", encryption := none, autoSubscribeAudio := true }) = true) ∧
    (RoomM.e2eeRequired
        { id := "r1", peers := [], maxPeers := 1, closed := false, e2eeRequired := false,
          autoSubscribeAudio := false, publisherTracks := [], subs := [] } = true →
      PeerM.encryption
        { id := "p1", encryption := none, autoSubscribeAudio := true }
        = some { algorithm := "", keyId := 0, senderKey := [] } →
      EncryptionInfo.algorithm { algorithm := "", keyId := 0, senderKey := [] } = "" →
      exceptIsErr (RoomM.AddPeer
        { id := "r1", peers := [], maxPeers := 1, closed := false, e2eeRequired := false,
          autoSubscribeAudio := false, publisherTracks := [], subs := [] }
        { id := "p1", encryption := none, autoSubscribeAudio := true }) = true) ∧
    (RoomM.AddPeer
        { id := "r1", peers := [], maxPeers := 1, closed := false, e2eeRequired := false,
          autoSubscribeAudio := false, publisherTracks := [], subs := [] }
        { id := "p1", encryption := none, autoSubscribeAudio := true }
      = .ok
        ({ id := "r1", peers := [{ id := "p1", encryption := none, autoSubscribeAudio := true }],
           maxPeers := 1, closed := false, e2eeRequired := false,
           autoSubscribeAudio := false, publisherTracks := [], subs := [] },
         ([] : List PubTrackM)) →
      RoomM.closed
        { id := "r1", peers := [], maxPeers := 1, closed := false, e2eeRequired := false,
          autoSubscribeAudio := false, publisherTracks := [], subs := [] } = false ∧
      ((RoomM.peers
        { id := "r1", peers := [], maxPeers := 1, closed := false, e2eeRequired := false,
          autoSubscribeAudio := false, publisherTracks := [], subs := [] }).length : Int)
        < RoomM.maxPeers
        { id := "r1", peers := [], maxPeers := 1, closed := false, e2eeRequired := false,
          autoSubscribeAudio := false, publisherTracks := [], subs := [] } ∧
      ((RoomM.peers
        { id := "r1", peers := [{ id := "p1", encryption := none, autoSubscribeAudio := true }],
          maxPeers := 1, closed := false, e2eeRequired := false,
          autoSubscribeAudio := false, publisherTracks := [], subs := [] }).length : Int)
        ≤ RoomM.maxPeers
        { id := "r1", peers := [], maxPeers := 1, closed := false, e2eeRequired := false,
          autoSubscribeAudio := false, publisherTracks := [], subs := [] } ∧
      RoomM.maxPeers
        { id := "r1", peers := [{ id := "p1", encryption := none, autoSubscribeAudio := true }],
          maxPeers := 1, closed := false, e2eeRequired := false,
          autoSubscribeAudio := false, publisherTracks := [], subs := [] }
        = RoomM.maxPeers
        { id := "r1", peers := [], maxPeers := 1, closed := false, e2eeRequired := false,
          autoSubscribeAudio := false, publisherTracks := [], subs := [] } ∧
      RoomM.closed
        { id := "r1", peers := [{ id := "p1", encryption := none, autoSubscribeAudio := true }],
          maxPeers := 1, closed := false, e2eeRequired := false,
          autoSubscribeAudio := false, publisherTracks := [], subs := [] }
        = RoomM.closed
        { id := "r1", peers := [], maxPeers := 1, closed := false, e2eeRequired := false,
          autoSubscribeAudio := false, publisherTracks := [], subs := [] }) :=
  addPeer_spec
    { id := "r1", peers := [], maxPeers := 1, closed := false, e2eeRequired := false,
      autoSubscribeAudio := false, publisherTracks := [], subs := [] }
    { id := "p1", encryption := none, autoSubscribeAudio := true }
    { algorithm := "", keyId := 0, senderKey := [] }
    { id := "r1", peers := [{ id := "p1", encryption := none, autoSubscribeAudio := true }],
      maxPeers := 1, closed := false, e2eeRequired := false,
      autoSubscribeAudio := false, publisherTracks := [], subs := [] }
    ([] : List PubTrackM)

/-- C7 counterexample: in a room with auto-subscribe-audio enabled that
already holds an audio track published by peer A, `AddPeer` of a peer B
whose own `AutoSubscribeAudio` config flag is false succeeds but issues
no Subscribe call at all, although the claim requires a subscription to
A's track for every successful `AddPeer` in such a room. -/
theorem addPeer_no_subscribe_without_peer_flag :
    RoomM.AddPeer
        { id := "room1", peers := [], maxPeers := 10, closed := false,
          e2eeRequired := false, autoSubscribeAudio := true,
          publisherTracks := [{ trackId := "t1", publisherId := "A", isAudio := true }],
          subs := [] }
        { id := "B", encryption := none, autoSubscribeAudio := false }
      = .ok
        ({ id := "room1",
           peers := [{ id := "B", encryption := none, autoSubscribeAudio := false }],
           maxPeers := 10, closed := false, e2eeRequired := false,
           autoSubscribeAudio := true,
           publisherTracks := [{ trackId := "t1", publisherId := "A", isAudio := true }],
           subs := [] },
         [{ trackId := "t1", publisherId := "A", isAudio := true }]) ∧
    ¬ ({ subscriberId := "B", trackId := "t1", quality := QualityHigh,
         maxTemporal := -1, maxSpatial := -1 } : SubReq) ∈ ([] : List SubReq) := by
  exact ⟨rfl, by simp⟩

/-- C7 (amended): in a room with auto-subscribe-audio enabled, a
successful `AddPeer` of a peer `p` whose own `AutoSubscribeAudio`
config flag is also set issues exactly one Subscribe call per existing
audio publisher track owned by another peer, each at quality high with
temporal and spatial limits -1 (the Go code discards the results of
those calls, so they cannot fail `AddPeer`); the call also returns the
list of available publisher tracks. -/
theorem addPeer_autoSubscribe_spec (r : RoomM) (p : PeerM) (r' : RoomM)
    (avail : List PubTrackM)
    (hroom : r.autoSubscribeAudio = true) (hpeer : p.autoSubscribeAudio = true)
    (hok : r.AddPeer p = .ok (r', avail)) :
    r'.subs = r.subs
      ++ (r.publisherTracks.filter (fun pt => pt.isAudio && pt.publisherId ≠ p.id)).map
          (fun pt =>
            { subscriberId := p.id, trackId := pt.trackId, quality := QualityHigh,
              maxTemporal := -1, maxSpatial := -1 }) ∧
    (∀ pt ∈ r.publisherTracks, pt.isAudio = true → pt.publisherId ≠ p.id →
      ({ subscriberId := p.id, trackId := pt.trackId, quality := QualityHigh,
         maxTemporal := -1, maxSpatial := -1 } : SubReq) ∈ r'.subs) ∧
    avail = r.publisherTracks := by
  unfold RoomM.AddPeer at hok
  by_cases hc : r.closed
  · simp [hc] at hok
  · by_cases hfull : r.maxPeers ≤ (r.peers.length : Int)
    · simp [hc, ge_iff_le, hfull] at hok
    · rcases hv : (if r.e2eeRequired then ValidateE2EERoom true p.encryption else .ok ()) with e0 | u0
      · rw [if_neg hc, if_neg (by simpa [ge_iff_le] using hfull)] at hok
        rw [hv] at hok
        exact absurd hok (by simp)
      · rw [if_neg hc, if_neg (by simpa [ge_iff_le] using hfull)] at hok
        rw [hv] at hok
        simp only [hroom, hpeer, Bool.and_self, if_pos, Except.ok.injEq,
          Prod.mk.injEq] at hok
        obtain ⟨hr', havail⟩ := hok
        subst hr'
        refine ⟨rfl, ?_, havail.symm⟩
        intro pt hmem haudio hother
        simp only [List.mem_append]
        right
        refine List.mem_map.mpr ⟨pt, ?_, rfl⟩
        refine List.mem_filter.mpr ⟨hmem, ?_⟩
        simp [haudio, hother]

/-- C7 witness: peer B (flag set) joining a room that auto-subscribes
audio and already holds A's audio track gets exactly the one Subscribe
call to that track at quality high, temporal -1, spatial -1. -/
theorem addPeer_autoSubscribe_spec_witness :
    RoomM.subs
        { id := "room1",
          peers := [{ id := "B", encryption := none, autoSubscribeAudio := true }],
          maxPeers := 10, closed := false, e2eeRequired := false,
          autoSubscribeAudio := true,
          publisherTracks := [{ trackId := "t1", publisherId := "A", isAudio := true }],
          subs := [{ subscriberId := "B", trackId := "t1", quality := QualityHigh,
                     maxTemporal := -1, maxSpatial := -1 }] }
      = RoomM.subs
        { id := "room1", peers := [], maxPeers := 10, closed := false,
          e2eeRequired := false, autoSubscribeAudio := true,
          publisherTracks := [{ trackId := "t1", publisherId := "A", isAudio := true }],
          subs := [] }
        ++ ((RoomM.publisherTracks
              { id := "room1", peers := [], maxPeers := 10, closed := false,
                e2eeRequired := false, autoSubscribeAudio := true,
                publisherTracks := [{ trackId := "t1", publisherId := "A", isAudio := true }],
                subs := [] }).filter
            (fun pt => pt.isAudio && pt.publisherId ≠ "B")).map
          (fun pt =>
            { subscriberId := "B", trackId := pt.trackId, quality := QualityHigh,
              maxTemporal := -1, maxSpatial := -1 }) ∧
    (∀ pt ∈ RoomM.publisherTracks
        { id := "room1", peers := [], maxPeers := 10, closed := false,
          e2eeRequired := false, autoSubscribeAudio := true,
          publisherTracks := [{ trackId := "t1", publisherId := "A", isAudio := true }],
          subs := [] },
      pt.isAudio = true → pt.publisherId ≠ "B" →
      ({ subscriberId := "B", trackId := pt.trackId, quality := QualityHigh,
         maxTemporal := -1, maxSpatial := -1 } : SubReq) ∈ RoomM.subs
        { id := "room1",
          peers := [{ id := "B", encryption := none, autoSubscribeAudio := true }],
          maxPeers := 10, closed := false, e2eeRequired := false,
          autoSubscribeAudio := true,
          publisherTracks := [{ trackId := "t1", publisherId := "A", isAudio := true }],
          subs := [{ subscriberId := "B", trackId := "t1", quality := QualityHigh,
                     maxTemporal := -1, maxSpatial := -1 }] }) ∧
    [{ trackId := "t1", publisherId := "A", isAudio := true }]
      = RoomM.publisherTracks
        { id := "room1", peers := [], maxPeers := 10, closed := false,
          e2eeRequired := false, autoSubscribeAudio := true,
          publisherTracks := [{ trackId := "t1", publisherId := "A", isAudio := true }],
          subs := [] } :=
  addPeer_autoSubscribe_spec
    { id := "room1", peers := [], maxPeers := 10, closed := false,
      e2eeRequired := false, autoSubscribeAudio := true,
      publisherTracks := [{ trackId := "t1", publisherId := "A", isAudio := true }],
      subs := [] }
    { id := "B", encryption := none, autoSubscribeAudio := true }
    { id := "room1",
      peers := [{ id := "B", encryption := none, autoSubscribeAudio := true }],
      maxPeers := 10, closed := false, e2eeRequired := false,
      autoSubscribeAudio := true,
      publisherTracks := [{ trackId := "t1", publisherId := "A", isAudio := true }],
      subs := [{ subscriberId := "B", trackId := "t1", quality := QualityHigh,
                 maxTemporal := -1, maxSpatial := -1 }] }
    [{ trackId := "t1", publisherId := "A", isAudio := true }]
    rfl rfl rfl

/-- Helper: the resolver loop fails as soon as any resolved address
parses to a reserved-range IP. -/
theorem checkResolvedIPs_err (parseIP : String → Option IPAddr) :
    ∀ (ips : List String) (s : String) (ip : IPAddr),
      s ∈ ips → parseIP s = some ip → isPrivateIP ip = true →
      exceptIsErr (checkResolvedIPs parseIP ips) = true := by
  intro ips
  induction ips with
  | nil => intro s ip hmem _ _; simp at hmem
  | cons a rest ih =>
      intro s ip hmem hparse hpriv
      rcases List.mem_cons.mp hmem with heq | hmem'
      · subst heq
        simp only [checkResolvedIPs, hparse, hpriv, if_pos]
        rfl
      · cases hpa : parseIP a with
        | none =>
            simp only [checkResolvedIPs, hpa]
            exact ih s ip hmem' hparse hpriv
        | some ipa =>
            by_cases hp : isPrivateIP ipa = true
            · simp only [checkResolvedIPs, hpa, hp, if_pos]
              rfl
            · simp only [checkResolvedIPs, hpa, if_neg hp]
              exact ih s ip hmem' hparse hpriv

/-- Helper: the resolver loop succeeds when every resolved address that
parses is outside the reserved ranges. -/
theorem checkResolvedIPs_ok (parseIP : String → Option IPAddr) :
    ∀ (ips : List String),
      (∀ s2 ∈ ips, ∀ ip2, parseIP s2 = some ip2 → isPrivateIP ip2 = false) →
      checkResolvedIPs parseIP ips = .ok () := by
  intro ips
  induction ips with
  | nil => intro _; rfl
  | cons a rest ih =>
      intro hall
      cases hpa : parseIP a with
      | none =>
          simp only [checkResolvedIPs, hpa]
          exact ih (fun s2 hs2 ip2 hip2 => hall s2 (List.mem_cons_of_mem a hs2) ip2 hip2)
      | some ipa =>
          have hfalse : isPrivateIP ipa = false := hall a (List.mem_cons_self a rest) ipa hpa
          simp only [checkResolvedIPs, hpa]
          rw [if_neg (by simp [hfalse])]
          exact ih (fun s2 hs2 ip2 hip2 => hall s2 (List.mem_cons_of_mem a hs2) ip2 hip2)

/-- C8: webhook URL validation (with the private-IP check enabled, the
default) fails whenever the parsed URL's scheme lowercases to something
other than `http`/`https`; whenever the hostname is empty; whenever the
hostname does not resolve; and whenever some resolved address parses to
an IP inside the reserved ranges encoded in `isPrivateIP` (10.0.0.0/8,
172.16.0.0/12, 192.168.0.0/16, 127.0.0.0/8, 169.254.0.0/16, ::1/128,
fc00::/7, fe80::/10, 100.64.0.0/10, 0.0.0.0/8, 192.0.0.0/24,
192.0.2.0/24, 198.51.100.0/24, 203.0.113.0/24, 198.18.0.0/15,
224.0.0.0/4, 240.0.0.0/4, 255.255.255.255/32).  Conversely, a URL with
an allowed scheme, a non-empty hostname, and no resolved address in a
reserved range validates successfully, so the listed conditions are
exactly the failure conditions past parsing; and the final conjunct
pins the encoded range list to the claim's, with one member of each of
the 18 ranges accepted by `isPrivateIP` and public v4/v6 addresses
rejected by it. -/
theorem validateWebhookURL_spec (parse : String → Except String GoURL)
    (lookupHost : String → Except String (List String))
    (parseIP : String → Option IPAddr)
    (raw : String) (u : GoURL) (e : String) (ips : List String)
    (s : String) (ip : IPAddr)
    (raw2 : String) (u2 : GoURL) (ips2 : List String) :
    (parse raw = .ok u → u.scheme.toLower ≠ "https" → u.scheme.toLower ≠ "http" →
      exceptIsErr (ValidateWebhookURL parse lookupHost parseIP false raw) = true) ∧
    (parse raw = .ok u → u.hostname = "" →
      exceptIsErr (ValidateWebhookURL parse lookupHost parseIP false raw) = true) ∧
    (parse raw = .ok u → lookupHost u.hostname = .error e →
      exceptIsErr (ValidateWebhookURL parse lookupHost parseIP false raw) = true) ∧
    (parse raw = .ok u → lookupHost u.hostname = .ok ips → s ∈ ips →
      parseIP s = some ip → isPrivateIP ip = true →
      exceptIsErr (ValidateWebhookURL parse lookupHost parseIP false raw) = true) ∧
    (parse raw2 = .ok u2 →
      (u2.scheme.toLower = "https" ∨ u2.scheme.toLower = "http") →
      u2.hostname ≠ "" →
      lookupHost u2.hostname = .ok ips2 →
      (∀ s2 ∈ ips2, ∀ ip2, parseIP s2 = some ip2 → isPrivateIP ip2 = false) →
      ValidateWebhookURL parse lookupHost parseIP false raw2 = .ok ()) ∧
    (isPrivateIP (.v4 (ipv4 10 1 2 3)) = true ∧
      isPrivateIP (.v4 (ipv4 172 16 5 5)) = true ∧
      isPrivateIP (.v4 (ipv4 192 168 1 1)) = true ∧
      isPrivateIP (.v4 (ipv4 127 0 0 1)) = true ∧
      isPrivateIP (.v4 (ipv4 169 254 10 10)) = true ∧
      isPrivateIP (.v6 1) = true ∧
      isPrivateIP (.v6 (0xfd00 * 2 ^ 112)) = true ∧
      isPrivateIP (.v6 (0xfe80 * 2 ^ 112 + 1)) = true ∧
      isPrivateIP (.v4 (ipv4 100 64 0 1)) = true ∧
      isPrivateIP (.v4 (ipv4 0 0 0 7)) = true ∧
      isPrivateIP (.v4 (ipv4 192 0 0 8)) = true ∧
      isPrivateIP (.v4 (ipv4 192 0 2 1)) = true ∧
      isPrivateIP (.v4 (ipv4 198 51 100 25)) = true ∧
      isPrivateIP (.v4 (ipv4 203 0 113 9)) = true ∧
      isPrivateIP (.v4 (ipv4 198 19 0 1)) = true ∧
      isPrivateIP (.v4 (ipv4 224 0 0 251)) = true ∧
      isPrivateIP (.v4 (ipv4 250 0 0 1)) = true ∧
      isPrivateIP (.v4 (ipv4 255 255 255 255)) = true ∧
      isPrivateIP (.v4 (ipv4 8 8 8 8)) = false ∧
      isPrivateIP (.v4 (ipv4 93 184 216 34)) = false ∧
      isPrivateIP (.v6 (0x2600 * 2 ^ 112)) = false) := by
  refine ⟨?_, ?_, ?_, ?_, ?_, by decide⟩
  · intro hp h1 h2
    simp only [ValidateWebhookURL, hp]
    rw [if_pos ⟨h1, h2⟩]
    rfl
  · intro hp hhost
    simp only [ValidateWebhookURL, hp]
    by_cases hsch : u.scheme.toLower ≠ "https" ∧ u.scheme.toLower ≠ "http"
    · rw [if_pos hsch]; rfl
    · rw [if_neg hsch, if_pos hhost]; rfl
  · intro hp hlk
    simp only [ValidateWebhookURL, hp]
    by_cases hsch : u.scheme.toLower ≠ "https" ∧ u.scheme.toLower ≠ "http"
    · rw [if_pos hsch]; rfl
    · rw [if_neg hsch]
      by_cases hhost : u.hostname = ""
      · rw [if_pos hhost]; rfl
      · rw [if_neg hhost, hlk]; rfl
  · intro hp hlk hmem hip hpriv
    simp only [ValidateWebhookURL, hp]
    by_cases hsch : u.scheme.toLower ≠ "https" ∧ u.scheme.toLower ≠ "http"
    · rw [if_pos hsch]; rfl
    · rw [if_neg hsch]
      by_cases hhost : u.hostname = ""
      · rw [if_pos hhost]; rfl
      · rw [if_neg hhost, hlk]
        simp only [Bool.false_eq_true, if_neg]
        exact checkResolvedIPs_err parseIP ips s ip hmem hip hpriv
  · intro hp2 hsch2 hhost2 hlk2 hclean
    simp only [ValidateWebhookURL, hp2]
    rw [if_neg (show ¬ (u2.scheme.toLower ≠ "https" ∧ u2.scheme.toLower ≠ "http") by tauto)]
    rw [if_neg hhost2, hlk2]
    simp only [Bool.false_eq_true, if_neg]
    exact checkResolvedIPs_ok parseIP ips2 hclean

/-- C8 witness: against the fixture oracles, the URL whose host resolves
to `10.0.0.1` is rejected (exercising the reserved-range branch) and
the URL whose host resolves only to the public `93.184.216.34` passes
(exercising the success branch); the per-range membership facts are
closed and evaluated. -/
theorem validateWebhookURL_spec_witness :
    (sampleParse "http://internal/hook" = .ok { scheme := "http", hostname := "internal" } →
      (GoURL.scheme { scheme := "http", hostname := "internal" }).toLower ≠ "https" →
      (GoURL.scheme { scheme := "http", hostname := "internal" }).toLower ≠ "http" →
      exceptIsErr (ValidateWebhookURL sampleParse sampleLookup sampleParseIP
        false "http://internal/hook") = true) ∧
    (sampleParse "http://internal/hook" = .ok { scheme := "http", hostname := "internal" } →
      GoURL.hostname { scheme := "http", hostname := "internal" } = "" →
      exceptIsErr (ValidateWebhookURL sampleParse sampleLookup sampleParseIP
        false "http://internal/hook") = true) ∧
    (sampleParse "http://internal/hook" = .ok { scheme := "http", hostname := "internal" } →
      sampleLookup (GoURL.hostname { scheme := "http", hostname := "internal" })
        = .error "no such host" →
      exceptIsErr (ValidateWebhookURL sampleParse sampleLookup sampleParseIP
        false "http://internal/hook") = true) ∧
    (sampleParse "http://internal/hook" = .ok { scheme := "http", hostname := "internal" } →
      sampleLookup (GoURL.hostname { scheme := "http", hostname := "internal" })
        = .ok ["10.0.0.1"] →
      "10.0.0.1" ∈ ["10.0.0.1"] →
      sampleParseIP "10.0.0.1" = some (.v4 (ipv4 10 0 0 1)) →
      isPrivateIP (.v4 (ipv4 10 0 0 1)) = true →
      exceptIsErr (ValidateWebhookURL sampleParse sampleLookup sampleParseIP
        false "http://internal/hook") = true) ∧
    (sampleParse "https://good.example/hook"
        = .ok { scheme := "https", hostname := "good.example" } →
      ((GoURL.scheme { scheme := "https", hostname := "good.example" }).toLower = "https" ∨
        (GoURL.scheme { scheme := "https", hostname := "good.example" }).toLower = "http") →
      GoURL.hostname { scheme := "https", hostname := "good.example" } ≠ "" →
      sampleLookup (GoURL.hostname { scheme := "https", hostname := "good.example" })
        = .ok ["93.184.216.34"] →
      (∀ s2 ∈ ["93.184.216.34"], ∀ ip2, sampleParseIP s2 = some ip2 →
        isPrivateIP ip2 = false) →
      ValidateWebhookURL sampleParse sampleLookup sampleParseIP
        false "https://good.example/hook" = .ok ()) ∧
    (isPrivateIP (.v4 (ipv4 10 1 2 3)) = true ∧
      isPrivateIP (.v4 (ipv4 172 16 5 5)) = true ∧
      isPrivateIP (.v4 (ipv4 192 168 1 1)) = true ∧
      isPrivateIP (.v4 (ipv4 127 0 0 1)) = true ∧
      isPrivateIP (.v4 (ipv4 169 254 10 10)) = true ∧
      isPrivateIP (.v6 1) = true ∧
      isPrivateIP (.v6 (0xfd00 * 2 ^ 112)) = true ∧
      isPrivateIP (.v6 (0xfe80 * 2 ^ 112 + 1)) = true ∧
      isPrivateIP (.v4 (ipv4 100 64 0 1)) = true ∧
      isPrivateIP (.v4 (ipv4 0 0 0 7)) = true ∧
      isPrivateIP (.v4 (ipv4 192 0 0 8)) = true ∧
      isPrivateIP (.v4 (ipv4 192 0 2 1)) = true ∧
      isPrivateIP (.v4 (ipv4 198 51 100 25)) = true ∧
      isPrivateIP (.v4 (ipv4 203 0 113 9)) = true ∧
      isPrivateIP (.v4 (ipv4 198 19 0 1)) = true ∧
      isPrivateIP (.v4 (ipv4 224 0 0 251)) = true ∧
      isPrivateIP (.v4 (ipv4 250 0 0 1)) = true ∧
      isPrivateIP (.v4 (ipv4 255 255 255 255)) = true ∧
      isPrivateIP (.v4 (ipv4 8 8 8 8)) = false ∧
      isPrivateIP (.v4 (ipv4 93 184 216 34)) = false ∧
      isPrivateIP (.v6 (0x2600 * 2 ^ 112)) = false) :=
  validateWebhookURL_spec sampleParse sampleLookup sampleParseIP
    "http://internal/hook" { scheme := "http", hostname := "internal" } "no such host"
    ["10.0.0.1"] "10.0.0.1" (.v4 (ipv4 10 0 0 1))
    "https://good.example/hook" { scheme := "https", hostname := "good.example" }
    ["93.184.216.34"]

/-- C9 counterexample: a paused subscription (with limits `S = T = 0 ≥ 0`)
does not forward a packet even on a non-VP9 track, so packets of other
codecs are not forwarded unconditionally as the claim states. -/
theorem svcStep_paused_non_vp9_not_forwarded :
    svcStep false
        { paused := true, hasDownTrack := true, maxSpatialLayer := 0, maxTemporalLayer := 0 }
        (fun _ => none) (fun _ => none) [] = .skip ∧
    ForwardDecision.skip ≠ ForwardDecision.write := by
  exact ⟨rfl, by simp⟩

/-- C9 (amended): for an SVC subscription with `maxSpatialLayer = S ≥ 0`
and `maxTemporalLayer = T ≥ 0`, a packet on a VP9 track whose payload
parses to spatial id `> S` or temporal id `> T` is never written to the
down track; a packet on a non-VP9 track is forwarded without any layer
filtering whenever the subscription is not paused and has a down track
(a paused subscription, or one without a down track, writes nothing). -/
theorem svcStep_spec (sub : SVCSubState) (pr : List Nat → Option (List Nat))
    (pv : List Nat → Option (Nat × Nat)) (pkt payload : List Nat) (sid tid : Nat)
    (hS : 0 ≤ sub.maxSpatialLayer) (hT : 0 ≤ sub.maxTemporalLayer) :
    (pr pkt = some payload → pv payload = some (sid, tid) →
      (sub.maxSpatialLayer < (sid : Int) ∨ sub.maxTemporalLayer < (tid : Int)) →
      svcStep true sub pr pv pkt ≠ .write) ∧
    (sub.paused = false → sub.hasDownTrack = true →
      svcStep false sub pr pv pkt = .write) := by
  constructor
  · intro hpr hpv hgt
    unfold svcStep
    by_cases hpd : (sub.paused || !sub.hasDownTrack) = true
    · rw [if_pos hpd]
      simp
    · rw [if_neg hpd, if_pos (by simp [decide_eq_true hS])]
      simp only [hpr, hpv]
      rcases hgt with h | h
      · rw [if_pos (by simp [hS, h])]
        simp
      · by_cases hfirst :
            (decide (sub.maxSpatialLayer ≥ 0) && decide ((sid : Int) > sub.maxSpatialLayer)) = true
        · rw [if_pos hfirst]
          simp
        · rw [if_neg hfirst, if_pos (by simp [hT, h])]
          simp
  · intro hps hdt
    simp [svcStep, hps, hdt]

/-- C9 witness: with limits `S = T = 1`, a VP9 packet parsing to spatial
id 2 is not written, and a non-VP9 packet on an unpaused subscription
with a down track is written. -/
theorem svcStep_spec_witness :
    (((fun _ => some []) : List Nat → Option (List Nat)) [0] = some [] →
      ((fun _ => some (2, 0)) : List Nat → Option (Nat × Nat)) [] = some (2, 0) →
      (SVCSubState.maxSpatialLayer
          { paused := false, hasDownTrack := true, maxSpatialLayer := 1, maxTemporalLayer := 1 }
          < ((2 : Nat) : Int) ∨
        SVCSubState.maxTemporalLayer
          { paused := false, hasDownTrack := true, maxSpatialLayer := 1, maxTemporalLayer := 1 }
          < ((0 : Nat) : Int)) →
      svcStep true
          { paused := false, hasDownTrack := true, maxSpatialLayer := 1, maxTemporalLayer := 1 }
          (fun _ => some []) (fun _ => some (2, 0)) [0] ≠ .write) ∧
    (SVCSubState.paused
        { paused := false, hasDownTrack := true, maxSpatialLayer := 1, maxTemporalLayer := 1 }
        = false →
      SVCSubState.hasDownTrack
        { paused := false, hasDownTrack := true, maxSpatialLayer := 1, maxTemporalLayer := 1 }
        = true →
      svcStep false
          { paused := false, hasDownTrack := true, maxSpatialLayer := 1, maxTemporalLayer := 1 }
          (fun _ => some []) (fun _ => some (2, 0)) [0] = .write) :=
  svcStep_spec
    { paused := false, hasDownTrack := true, maxSpatialLayer := 1, maxTemporalLayer := 1 }
    (fun _ => some []) (fun _ => some (2, 0)) [0] [] 2 0 (by decide) (by decide)

/-- C1: evaluating the embedded `StartDialog` twice with the same
session id `s1` against a one-dialog loader. The first call stores the
session; the second call, instead of failing with an already-exists
error as the specification requires, succeeds again and silently
replaces the stored session with a fresh one (here visible in the
replaced `startTime`), orphaning the session state created first. -/
theorem startDialog_duplicate_id_overwrites :
    StartDialog
        [("d", { name := "d", initialState := "s0",
                 states := [("s0", { onEnter := [], transitions := [],
                                     timeoutNext := "", terminal := false })] })]
        []
        { sessionId := "s1", dialogName := "d", initialState := "", vars := [] } 0
      = .ok
        ([("s1", { session :=
            { id := "s1", dialogName := "d", currentState := "s0", vars := [],
              history := [], startTime := 0, maxHistory := 1000 } })],
         { sessionId := "s1", currentState := "s0", actions := [] }) ∧
    StartDialog
        [("d", { name := "d", initialState := "s0",
                 states := [("s0", { onEnter := [], transitions := [],
                                     timeoutNext := "", terminal := false })] })]
        [("s1", { session :=
            { id := "s1", dialogName := "d", currentState := "s0", vars := [],
              history := [], startTime := 0, maxHistory := 1000 } })]
        { sessionId := "s1", dialogName := "d", initialState := "", vars := [] } 1
      = .ok
        ([("s1", { session :=
            { id := "s1", dialogName := "d", currentState := "s0", vars := [],
              history := [], startTime := 1, maxHistory := 1000 } })],
         { sessionId := "s1", currentState := "s0", actions := [] }) ∧
    ({ session :=
        { id := "s1", dialogName := "d", currentState := "s0", vars := [],
          history := [], startTime := 1, maxHistory := 1000 } } : ActiveSessionM)
      ≠ { session :=
        { id := "s1", dialogName := "d", currentState := "s0", vars := [],
          history := [], startTime := 0, maxHistory := 1000 } } := by
  refine ⟨rfl, rfl, by decide⟩

end VoiceTyped
